import Mathlib

/-
Verification of the Driva driver-monitoring application.

The development shallowly embeds the logic-bearing parts of the source:
the EAR calculator (src/utils/fatigueDetection.ts), the fatigue debouncer,
the emergency countdown, the drowsy-escalation effect, the audio playback
scheduling cursor, the tool-call dispatch loop and the base64 audio framing
helpers (all in the main App component).  JavaScript numbers are modelled
as real numbers for the geometric code and as rationals for clock values;
Uint8Array bytes are lists of naturals below 256; JS strings are Lean
strings (or lists of character codes for the binary-string helpers).
-/

namespace Driva

/-! ## Enumerations from src/types.ts -/

inductive DriverState where
  | MONITORING
  | DROWSY
  | UNRESPONSIVE
  | ENGAGED
deriving DecidableEq, Repr, BEq

inductive MiraState where
  | IDLE
  | LISTENING
  | THINKING
  | SPEAKING
deriving DecidableEq, Repr, BEq

inductive Speaker where
  | USER
  | MIRA
deriving DecidableEq, Repr

structure TranscriptionEntry where
  speaker : Speaker
  text : String
deriving DecidableEq, Repr

/-! ## EAR calculator (src/utils/fatigueDetection.ts)

Landmark points have real coordinates.  JavaScript indexing past the end of
the array yields undefined, and the subsequent property access inside
getEuclideanDistance throws; this is modelled by optional indexing, so the
function returns none exactly when one of the six accessed points is
missing. -/

structure Point where
  x : ℝ
  y : ℝ

/-- Source: getEuclideanDistance, lines 5 to 7 of fatigueDetection.ts. -/
noncomputable def getEuclideanDistance (p1 p2 : Point) : ℝ :=
  Real.sqrt ((p1.x - p2.x) ^ 2 + (p1.y - p2.y) ^ 2)

/-- Source: getEyeAspectRatio, lines 18 to 38 of fatigueDetection.ts.
The six destructured landmarks are all used, so a list shorter than six
makes the computation throw (modelled as none); extra points are ignored. -/
noncomputable def getEyeAspectRatio (eyeLandmarks : List Point) : Option ℝ := do
  let p1 ← eyeLandmarks[0]?
  let p2 ← eyeLandmarks[1]?
  let p3 ← eyeLandmarks[2]?
  let p4 ← eyeLandmarks[3]?
  let p5 ← eyeLandmarks[4]?
  let p6 ← eyeLandmarks[5]?
  let verticalDist1 := getEuclideanDistance p2 p6
  let verticalDist2 := getEuclideanDistance p3 p5
  let horizontalDist := getEuclideanDistance p1 p4
  pure ((verticalDist1 + verticalDist2) / (2 * horizontalDist))

/-- Uniform translation of a landmark point by an offset t. -/
def translatePoint (t : Point) (p : Point) : Point :=
  ⟨p.x + t.x, p.y + t.y⟩

/-- Uniform scaling of a landmark point by a factor c. -/
def scalePoint (c : ℝ) (p : Point) : Point :=
  ⟨c * p.x, c * p.y⟩

/-- A concrete well-formed six-point eye landmark set. -/
def eyePoints : List Point :=
  [⟨0, 0⟩, ⟨1, 1⟩, ⟨2, 1⟩, ⟨3, 0⟩, ⟨2, -1⟩, ⟨1, -1⟩]

/-- A concrete seven-point landmark list (one extra trailing point). -/
def sevenPoints : List Point :=
  [⟨0, 0⟩, ⟨1, 1⟩, ⟨2, 1⟩, ⟨3, 0⟩, ⟨2, -1⟩, ⟨1, -1⟩, ⟨9, 9⟩]

/-! ## Fatigue debouncer (App detection interval, part_000 lines 218 to 251)

The interval callback consumes one detection result per 200 ms tick.  Only
face presence and the averaged EAR feed the counters, so a sample is
modelled by those two fields.  The EAR is carried as a rational so the
threshold comparison stays executable. -/

structure DetectionSample where
  faceFound : Bool
  ear : ℚ
deriving DecidableEq

/-- The source threshold 0.25, written as the reduced fraction 1/4 so that
comparisons against it evaluate by kernel reduction (the bridging equation
EAR_THRESHOLD_value below checks it equals 1/4). -/
def EAR_THRESHOLD : ℚ := ⟨1, 4, by decide, by decide⟩

def CONSECUTIVE_FRAMES_DROWSY : ℕ := 10

def CONSECUTIVE_FRAMES_UNRESPONSIVE : ℕ := 25

structure DebouncerState where
  eyeClosedFrames : ℕ
  noFaceFrames : ℕ
deriving DecidableEq, Repr

inductive FatigueEvent where
  | RequestDrowsy
  | RequestUnresponsive
deriving DecidableEq, Repr

/-- One detection tick (part_000 lines 222 to 249): when a face is found the
no-face counter resets and the eye-closure counter is updated from the
averaged EAR, requesting DROWSY strictly above the ten-frame threshold;
when no face is found the no-face counter increments, requesting
UNRESPONSIVE strictly above the twenty-five-frame threshold. -/
def debounceStep (s : DebouncerState) (d : DetectionSample) :
    DebouncerState × Option FatigueEvent :=
  if d.faceFound then
    let eyeClosed := if d.ear < EAR_THRESHOLD then s.eyeClosedFrames + 1 else 0
    let s1 : DebouncerState := ⟨eyeClosed, 0⟩
    if CONSECUTIVE_FRAMES_DROWSY < s1.eyeClosedFrames then
      (s1, some FatigueEvent.RequestDrowsy)
    else
      (s1, none)
  else
    let s1 : DebouncerState := ⟨s.eyeClosedFrames, s.noFaceFrames + 1⟩
    if CONSECUTIVE_FRAMES_UNRESPONSIVE < s1.noFaceFrames then
      (s1, some FatigueEvent.RequestUnresponsive)
    else
      (s1, none)

/-- Fold of the debouncer over a sample sequence, recording the per-sample
emitted event. -/
def debounceRun (s : DebouncerState) : List DetectionSample →
    DebouncerState × List (Option FatigueEvent)
  | [] => (s, [])
  | d :: ds =>
    let r := debounceStep s d
    let rest := debounceRun r.1 ds
    (rest.1, r.2 :: rest.2)

/-! ## Scheduled playback cursor (part_000 lines 342 to 356)

The onmessage handler schedules each decoded chunk at
max(nextStartTime, currentTime) and advances the cursor by the chunk
duration.  Clock values and durations are modelled as rationals. -/

/-- Returns the scheduled start time for the chunk and the updated value of
nextAudioStartTimeRef. -/
def scheduleAudioChunk (nextStartTime currentTime duration : ℚ) : ℚ × ℚ :=
  let t := max nextStartTime currentTime
  (t, t + duration)

/-! ## Session error and close handlers (part_000 lines 358 to 363) -/

structure SessionUIState where
  miraState : MiraState
  nextAudioStartTime : ℚ
  analyserSet : Bool
deriving DecidableEq

/-- Source onerror callback: it only logs the error and changes no state. -/
def onSessionError (s : SessionUIState) : SessionUIState := s

/-- Source onclose callback: resets the conversational state to IDLE and
clears the analyser node; nextAudioStartTimeRef is not touched. -/
def onSessionClose (s : SessionUIState) : SessionUIState :=
  { s with miraState := MiraState.IDLE, analyserSet := false }

/-! ## Tool-call dispatch loop (part_000 lines 327 to 340)

A handler is an async function of the serialized arguments which either
returns a result text or throws; throwing is modelled by Except.error.
The loop looks each call up in the registry: a missing name is skipped
with no response, and a thrown exception rejects the whole onmessage
invocation, aborting the remaining iterations (responses already sent by
earlier iterations stand). -/

structure ToolCall where
  id : String
  name : String
  args : String
deriving DecidableEq

structure ToolResult where
  id : String
  name : String
  result : String
deriving DecidableEq

def dispatchBatch (registry : String → Option (String → Except String String)) :
    List ToolCall → List ToolResult
  | [] => []
  | fc :: rest =>
    match registry fc.name with
    | none => dispatchBatch registry rest
    | some func =>
      match func fc.args with
      | Except.ok result => ⟨fc.id, fc.name, result⟩ :: dispatchBatch registry rest
      | Except.error _ => []

/-- The registry of part_000 lines 135 to 176 holds exactly the two handlers
find_nearby_places and play_spotify_song.  The handler bodies perform
network and UI effects; only their name domain and the fact that they
return normally matter here, so the returned text is abstracted. -/
def mockFunctions : String → Option (String → Except String String) :=
  fun name =>
    if name = "find_nearby_places" then
      some (fun _ => Except.ok "nearby place summary")
    else if name = "play_spotify_song" then
      some (fun args => Except.ok ("Now playing " ++ args ++ ". Enjoy!"))
    else
      none

/-! ## Base64 audio framing (part_000 lines 14 to 31)

The encode helper builds a binary string whose character codes are exactly
the input bytes (String.fromCharCode of a value below 256) and applies the
platform btoa; decode applies atob and reads the character codes back.
Binary strings are represented by their lists of character codes, so the
fromCharCode and charCodeAt loops are identities of representation, and the
platform btoa and atob are modelled by a standard base64 codec over
character lists. -/

def base64Alphabet : List Char :=
  ['A', 'B', 'C', 'D', 'E', 'F', 'G', 'H', 'I', 'J', 'K', 'L', 'M',
   'N', 'O', 'P', 'Q', 'R', 'S', 'T', 'U', 'V', 'W', 'X', 'Y', 'Z',
   'a', 'b', 'c', 'd', 'e', 'f', 'g', 'h', 'i', 'j', 'k', 'l', 'm',
   'n', 'o', 'p', 'q', 'r', 's', 't', 'u', 'v', 'w', 'x', 'y', 'z',
   '0', '1', '2', '3', '4', '5', '6', '7', '8', '9', '+', '/']

def b64char (n : ℕ) : Char := base64Alphabet.getD n 'A'

def b64digit (c : Char) : ℕ := base64Alphabet.indexOf c

/-- Groups of three bytes become four six-bit values; a trailing group of
one or two bytes becomes two or three six-bit values. -/
def btoaSextets : List ℕ → List ℕ
  | [] => []
  | [b1] => [b1 / 4, b1 % 4 * 16]
  | [b1, b2] => [b1 / 4, b1 % 4 * 16 + b2 / 16, b2 % 16 * 4]
  | b1 :: b2 :: b3 :: rest =>
    b1 / 4 :: (b1 % 4 * 16 + b2 / 16) :: (b2 % 16 * 4 + b3 / 64) :: b3 % 64 ::
      btoaSextets rest

/-- Groups of four six-bit values become three bytes; a trailing group of
two or three six-bit values becomes one or two bytes. -/
def atobBytes : List ℕ → List ℕ
  | s1 :: s2 :: s3 :: s4 :: rest =>
    (s1 * 4 + s2 / 16) :: (s2 % 16 * 16 + s3 / 4) :: (s3 % 4 * 64 + s4) ::
      atobBytes rest
  | [s1, s2] => [s1 * 4 + s2 / 16]
  | [s1, s2, s3] => [s1 * 4 + s2 / 16, s2 % 16 * 16 + s3 / 4]
  | _ => []

/-- Platform btoa on the character-code representation of a binary string:
base64 digits followed by the standard padding to a multiple of four. -/
def btoa (bytes : List ℕ) : List Char :=
  (btoaSextets bytes).map b64char ++
    List.replicate ((3 - bytes.length % 3) % 3) '='

/-- Platform atob: drops the padding and decodes the base64 digits. -/
def atob (s : List Char) : List ℕ :=
  atobBytes ((s.filter (fun c => c ≠ '=')).map b64digit)

/-- Source encode, part_000 lines 14 to 21. -/
def encode (bytes : List ℕ) : List Char := btoa bytes

/-- Source decode, part_000 lines 23 to 31. -/
def decode (base64 : List Char) : List ℕ := atob base64

/-- A concrete session UI state with a speaking agent and a non-zero
playback cursor. -/
def sessionStateEx : SessionUIState := ⟨MiraState.SPEAKING, 5, true⟩

/-- A tool call whose name is not registered in mockFunctions. -/
def orphanCall : ToolCall := ⟨"call-1", "navigate_home", "{}"⟩

/-- A batch of two tool calls whose handlers both exist and succeed. -/
def goodBatch : List ToolCall :=
  [⟨"id-1", "find_nearby_places", "coffee shop"⟩,
   ⟨"id-2", "play_spotify_song", "some song"⟩]

/-! ## Driver attention state machine and effects (part_000 lines 53 to 412)

The App component state relevant to the state machine, the emergency
countdown and the session lifecycle.  React state updates committed by an
event handler are followed synchronously by the effects whose dependencies
changed, so each modelled event applies the raw handler and then the
driver-state effect of lines 383 to 396.  The countdown-expiry effect of
lines 398 to 405 has the dependency array [emergencyCountdown, location]:
it re-runs inside the countdown tick (which changes the countdown) and on
every geolocation update delivered by the watchPosition callback of lines
196 to 205 — in particular it fires again whenever the location changes
while the countdown sits at zero after an expiry.  The GoogleGenAI client
is modelled as initialized (the setup path where the API key is
configured). -/

structure AppState where
  driverState : DriverState
  miraState : MiraState
  permissionsGranted : Bool
  modelsLoaded : Bool
  isEmergency : Bool
  emergencyCountdown : ℤ
  emergencyTimerOn : Bool
  sessionActive : Bool
  eyeClosedFrames : ℕ
  noFaceFrames : ℕ
  notifyCount : ℕ
  transcriptions : List TranscriptionEntry
deriving DecidableEq, Repr

/-- Initial component state (part_000 lines 54 to 74). -/
def initState : AppState where
  driverState := DriverState.MONITORING
  miraState := MiraState.IDLE
  permissionsGranted := false
  modelsLoaded := false
  isEmergency := false
  emergencyCountdown := 15
  emergencyTimerOn := false
  sessionActive := false
  eyeClosedFrames := 0
  noFaceFrames := 0
  notifyCount := 0
  transcriptions := []

/-- Effect of part_000 lines 383 to 396.  Both branches read the same
rendered driverState snapshot, and DROWSY and UNRESPONSIVE are distinct,
so at most one branch fires per invocation.  Entering DROWSY with Mira
idle calls startLiveSession (whose entry guard at line 267 requires
permissions) and then unconditionally moves to ENGAGED; entering
UNRESPONSIVE with no countdown active arms the 15-second countdown. -/
def driverEffect (s : AppState) : AppState :=
  if s.driverState = DriverState.DROWSY ∧ s.miraState = MiraState.IDLE then
    let s1 :=
      if s.permissionsGranted then
        { s with miraState := MiraState.LISTENING, sessionActive := true }
      else s
    { s1 with driverState := DriverState.ENGAGED }
  else if s.driverState = DriverState.UNRESPONSIVE ∧ s.isEmergency = false then
    { s with isEmergency := true, emergencyCountdown := 15,
             emergencyTimerOn := true }
  else s

/-- Effect of part_000 lines 398 to 405, run whenever one of its
dependencies — the countdown value or the last observed location —
changes: on a non-positive countdown it stops the timer, alerts the
emergency contact, clears the emergency flag and returns to MONITORING.
Because cancellation and expiry leave the countdown value in place, a
later location update re-runs this effect against the stale countdown. -/
def expiryEffect (s : AppState) : AppState :=
  if s.emergencyCountdown ≤ 0 then
    { s with emergencyTimerOn := false, notifyCount := s.notifyCount + 1,
             isEmergency := false, driverState := DriverState.MONITORING }
  else s

/-- External and timer events driving the component, including the
geolocation updates delivered by watchPosition. -/
inductive Ev where
  | setup
  | detect (d : DetectionSample)
  | emergencyTick
  | cancelEmergency
  | locationUpdate
  | msgOutputDelta
  | msgTurnComplete
  | msgToolCall
  | sessionClose
  | sessionError
deriving DecidableEq

/-- Body of the interval callback of lines 222 to 249: the counters are
updated by one debouncer step and the emitted request, if any, moves the
driver state to DROWSY or UNRESPONSIVE. -/
def detectUpdate (s : AppState) (d : DetectionSample) : AppState :=
  match debounceStep ⟨s.eyeClosedFrames, s.noFaceFrames⟩ d with
  | (c, some FatigueEvent.RequestDrowsy) =>
    { s with eyeClosedFrames := c.eyeClosedFrames,
             noFaceFrames := c.noFaceFrames,
             driverState := DriverState.DROWSY }
  | (c, some FatigueEvent.RequestUnresponsive) =>
    { s with eyeClosedFrames := c.eyeClosedFrames,
             noFaceFrames := c.noFaceFrames,
             driverState := DriverState.UNRESPONSIVE }
  | (c, none) =>
    { s with eyeClosedFrames := c.eyeClosedFrames,
             noFaceFrames := c.noFaceFrames }

/-- Raw event handlers.  detect is the interval callback of lines 218 to
251, active only while monitoring with permissions and models ready;
emergencyTick is the 1 Hz interval of lines 391 to 393 followed by the
countdown-expiry effect; cancelEmergency is lines 407 to 412, available
while the emergency overlay is shown; locationUpdate is a geolocation
callback of lines 196 to 205, which changes the location dependency and
thereby re-runs the countdown-expiry effect; the session events are the
onmessage state updates of lines 307 to 340 and the onclose handler. -/
def rawStep (s : AppState) : Ev → AppState
  | Ev.setup =>
    if s.permissionsGranted then s
    else { s with permissionsGranted := true, modelsLoaded := true }
  | Ev.detect d =>
    if s.permissionsGranted = true ∧ s.modelsLoaded = true ∧
        s.driverState = DriverState.MONITORING then
      detectUpdate s d
    else s
  | Ev.emergencyTick =>
    if s.emergencyTimerOn then
      expiryEffect { s with emergencyCountdown := s.emergencyCountdown - 1 }
    else s
  | Ev.cancelEmergency =>
    if s.isEmergency then
      { s with emergencyTimerOn := false, isEmergency := false,
               driverState := DriverState.MONITORING,
               transcriptions := s.transcriptions ++
                 [⟨Speaker.USER, "I\x27m okay."⟩] }
    else s
  | Ev.locationUpdate => expiryEffect s
  | Ev.msgOutputDelta =>
    if s.sessionActive then { s with miraState := MiraState.SPEAKING } else s
  | Ev.msgTurnComplete =>
    if s.sessionActive then { s with miraState := MiraState.LISTENING } else s
  | Ev.msgToolCall =>
    if s.sessionActive then { s with miraState := MiraState.THINKING } else s
  | Ev.sessionClose =>
    if s.sessionActive then
      { s with miraState := MiraState.IDLE, sessionActive := false }
    else s
  | Ev.sessionError => s

/-- One event step: raw handler followed by the driver-state effect. -/
def appStep (s : AppState) (e : Ev) : AppState :=
  driverEffect (rawStep s e)

/-- State reached from the initial state by a sequence of events. -/
def runApp (es : List Ev) : AppState :=
  es.foldl appStep initState

/-- A detection sample with the face visible and eyes closed (averaged EAR
one tenth, below the threshold). -/
def closedEyesSample : DetectionSample := ⟨true, ⟨1, 10, by decide, by decide⟩⟩

/-- A detection sample with no face in view. -/
def noFaceSample : DetectionSample := ⟨false, 0⟩

/-- Event prefix that grants permissions and then observes 26 consecutive
no-face samples, entering UNRESPONSIVE and arming the countdown. -/
def unresponsiveRun : List Ev :=
  Ev.setup :: List.replicate 26 (Ev.detect noFaceSample)

/-- Event prefix that grants permissions and then observes ten consecutive
closed-eyes samples, leaving the debouncer one sample short of the drowsy
threshold. -/
def almostDrowsyRun : List Ev :=
  Ev.setup :: List.replicate 10 (Ev.detect closedEyesSample)

/-- Events that let the emergency countdown expire, re-engage Mira through
a drowsiness escalation, and then deliver one geolocation update: the
update re-runs the countdown-expiry effect against the stale zero
countdown, notifying again and forcing the engaged machine back to
MONITORING while Mira stays LISTENING. -/
def drowsyBlockedPrefix : List Ev :=
  unresponsiveRun ++ List.replicate 15 Ev.emergencyTick ++
    List.replicate 11 (Ev.detect closedEyesSample) ++ [Ev.locationUpdate]

/-- One further closed-eyes sample after drowsyBlockedPrefix: the
debouncer requests DROWSY again, but Mira is no longer idle, so the
escalation effect of line 384 does not fire. -/
def drowsyBlockedRun : List Ev :=
  drowsyBlockedPrefix ++ [Ev.detect closedEyesSample]

/-! # Theorems -/

/-! ## Base64 codec lemmas -/

theorem btoaSextets_lt (b : List ℕ) (hb : ∀ x ∈ b, x < 256) :
    ∀ s ∈ btoaSextets b, s < 64 := by
  induction b using btoaSextets.induct with
  | case1 => intro s hs; simp [btoaSextets] at hs
  | case2 b1 =>
    intro s hs
    have h1 : b1 < 256 := hb b1 (by simp)
    simp [btoaSextets] at hs
    rcases hs with h | h <;> omega
  | case3 b1 b2 =>
    intro s hs
    have h1 : b1 < 256 := hb b1 (by simp)
    have h2 : b2 < 256 := hb b2 (by simp)
    simp [btoaSextets] at hs
    rcases hs with h | h | h <;> omega
  | case4 b1 b2 b3 rest ih =>
    intro s hs
    have h1 : b1 < 256 := hb b1 (by simp)
    have h2 : b2 < 256 := hb b2 (by simp)
    have h3 : b3 < 256 := hb b3 (by simp)
    simp only [btoaSextets, List.mem_cons] at hs
    rcases hs with h | h | h | h | h
    · omega
    · omega
    · omega
    · omega
    · exact ih (fun x hx => hb x (by simp [hx])) s h

theorem atobBytes_btoaSextets (b : List ℕ) (hb : ∀ x ∈ b, x < 256) :
    atobBytes (btoaSextets b) = b := by
  induction b using btoaSextets.induct with
  | case1 => rfl
  | case2 b1 =>
    have h1 : b1 < 256 := hb b1 (by simp)
    simp only [btoaSextets, atobBytes, List.cons.injEq, and_true]
    omega
  | case3 b1 b2 =>
    have h1 : b1 < 256 := hb b1 (by simp)
    have h2 : b2 < 256 := hb b2 (by simp)
    simp only [btoaSextets, atobBytes, List.cons.injEq, and_true]
    omega
  | case4 b1 b2 b3 rest ih =>
    have h1 : b1 < 256 := hb b1 (by simp)
    have h2 : b2 < 256 := hb b2 (by simp)
    have h3 : b3 < 256 := hb b3 (by simp)
    simp only [btoaSextets, atobBytes, List.cons.injEq]
    refine ⟨by omega, by omega, by omega, ih (fun x hx => hb x (by simp [hx]))⟩

theorem b64digit_b64char (n : ℕ) (hn : n < 64) : b64digit (b64char n) = n := by
  interval_cases n <;> rfl

theorem b64char_ne_pad (n : ℕ) (hn : n < 64) : b64char n ≠ '=' := by
  interval_cases n <;> decide

/-- C10: the base64 audio framing helpers form a round-trip: for every byte
array b (each byte below 256, as delivered by a Uint8Array), decoding the
encoding returns a byte array equal to b. -/
theorem base64_roundtrip (b : List ℕ) (hb : ∀ x ∈ b, x < 256) :
    decode (encode b) = b := by
  have hlt := btoaSextets_lt b hb
  unfold decode encode atob btoa
  rw [List.filter_append]
  have hpad : (List.replicate ((3 - b.length % 3) % 3) '=').filter
      (fun c => c ≠ '=') = [] := by
    induction ((3 - b.length % 3) % 3) with
    | zero => rfl
    | succ n ih => simp [List.replicate_succ, List.filter_cons, ih]
  have hfil : ((btoaSextets b).map b64char).filter (fun c => c ≠ '=') =
      (btoaSextets b).map b64char := by
    apply List.filter_eq_self.mpr
    intro c hc
    obtain ⟨n, hn, rfl⟩ := List.mem_map.mp hc
    simpa using b64char_ne_pad n (hlt n hn)
  rw [hpad, hfil, List.append_nil, List.map_map]
  have hmap : (btoaSextets b).map (b64digit ∘ b64char) = btoaSextets b := by
    have := List.map_congr_left (l := btoaSextets b)
      (f := b64digit ∘ b64char) (g := id)
      (fun n hn => b64digit_b64char n (hlt n hn))
    simpa using this
  rw [hmap]
  exact atobBytes_btoaSextets b hb

/-- Witness for C10 at the concrete byte array [0, 127, 255, 10, 72]. -/
theorem base64_roundtrip_witness :
    (∀ x ∈ [0, 127, 255, 10, 72], x < 256) ∧
      decode (encode [0, 127, 255, 10, 72]) = [0, 127, 255, 10, 72] :=
  ⟨by decide, base64_roundtrip [0, 127, 255, 10, 72] (by decide)⟩

/-! ## EAR calculator theorems -/

theorem getEyeAspectRatio_six (p1 p2 p3 p4 p5 p6 : Point) :
    getEyeAspectRatio [p1, p2, p3, p4, p5, p6] =
      some ((getEuclideanDistance p2 p6 + getEuclideanDistance p3 p5) /
        (2 * getEuclideanDistance p1 p4)) := rfl

/-- C7 counterexample: a seven-point landmark list, whose length is not 6,
still yields a numeric EAR value instead of failing. -/
theorem ear_seven_points_returns_value :
    sevenPoints.length ≠ 6 ∧ (getEyeAspectRatio sevenPoints).isSome = true :=
  ⟨by decide, rfl⟩

/-- C7 amended: getEyeAspectRatio performs no length validation.  With
fewer than six points the landmark lookup fails (the undefined property
access throws, modelled as none), but with more than six points the first
six are used and a numeric EAR is returned; no InvalidLandmarkSet check
exists. -/
theorem ear_length_behavior :
    (∀ pts : List Point, pts.length < 6 → getEyeAspectRatio pts = none) ∧
    (∀ pts : List Point, 6 ≤ pts.length →
      (getEyeAspectRatio pts).isSome = true) := by
  constructor
  · intro pts h
    match pts with
    | [] => rfl
    | [_] => rfl
    | [_, _] => rfl
    | [_, _, _] => rfl
    | [_, _, _, _] => rfl
    | [_, _, _, _, _] => rfl
    | _ :: _ :: _ :: _ :: _ :: _ :: _ => simp at h; omega
  · intro pts h
    match pts with
    | [] => simp at h
    | [_] => simp at h
    | [_, _] => simp at h
    | [_, _, _] => simp at h
    | [_, _, _, _] => simp at h
    | [_, _, _, _, _] => simp at h
    | _ :: _ :: _ :: _ :: _ :: _ :: _ => simp [getEyeAspectRatio]

/-- Witness for C7 amended: the empty list fails, the seven-point list
succeeds. -/
theorem ear_length_behavior_witness :
    ([] : List Point).length < 6 ∧ getEyeAspectRatio [] = none ∧
      6 ≤ sevenPoints.length ∧ (getEyeAspectRatio sevenPoints).isSome = true :=
  ⟨by decide, ear_length_behavior.1 [] (by decide), by decide,
    ear_length_behavior.2 sevenPoints (by decide)⟩

theorem getEuclideanDistance_translate (t p q : Point) :
    getEuclideanDistance (translatePoint t p) (translatePoint t q) =
      getEuclideanDistance p q := by
  unfold getEuclideanDistance translatePoint
  congr 1
  ring

theorem getEuclideanDistance_scale (c : ℝ) (p q : Point) :
    getEuclideanDistance (scalePoint c p) (scalePoint c q) =
      |c| * getEuclideanDistance p q := by
  unfold getEuclideanDistance scalePoint
  rw [show (c * p.x - c * q.x) ^ 2 + (c * p.y - c * q.y) ^ 2 =
    c ^ 2 * ((p.x - q.x) ^ 2 + (p.y - q.y) ^ 2) by ring]
  rw [Real.sqrt_mul (sq_nonneg c), Real.sqrt_sq_eq_abs]

/-- C9: for every six-point landmark set, the EAR is invariant under a
uniform translation of all points and under a uniform scaling by any
non-zero factor. -/
theorem ear_similarity_invariance (pts : List Point) (t : Point) (c : ℝ)
    (h6 : pts.length = 6) (hc : c ≠ 0) :
    getEyeAspectRatio (pts.map (translatePoint t)) = getEyeAspectRatio pts ∧
      getEyeAspectRatio (pts.map (scalePoint c)) = getEyeAspectRatio pts := by
  match pts with
  | [p1, p2, p3, p4, p5, p6] =>
    have habs : |c| ≠ 0 := abs_ne_zero.mpr hc
    constructor
    · show getEyeAspectRatio [translatePoint t p1, translatePoint t p2,
        translatePoint t p3, translatePoint t p4, translatePoint t p5,
        translatePoint t p6] = getEyeAspectRatio [p1, p2, p3, p4, p5, p6]
      rw [getEyeAspectRatio_six, getEyeAspectRatio_six,
        getEuclideanDistance_translate, getEuclideanDistance_translate,
        getEuclideanDistance_translate]
    · show getEyeAspectRatio [scalePoint c p1, scalePoint c p2,
        scalePoint c p3, scalePoint c p4, scalePoint c p5,
        scalePoint c p6] = getEyeAspectRatio [p1, p2, p3, p4, p5, p6]
      rw [getEyeAspectRatio_six, getEyeAspectRatio_six,
        getEuclideanDistance_scale, getEuclideanDistance_scale,
        getEuclideanDistance_scale]
      rw [show |c| * getEuclideanDistance p2 p6 +
          |c| * getEuclideanDistance p3 p5 =
          |c| * (getEuclideanDistance p2 p6 + getEuclideanDistance p3 p5)
        by ring]
      rw [show (2 : ℝ) * (|c| * getEuclideanDistance p1 p4) =
          |c| * (2 * getEuclideanDistance p1 p4) by ring]
      rw [mul_div_mul_left _ _ habs]

/-- Witness for C9 at a concrete landmark set, offset and factor. -/
theorem ear_similarity_invariance_witness :
    eyePoints.length = 6 ∧ (2 : ℝ) ≠ 0 ∧
      getEyeAspectRatio (eyePoints.map (translatePoint ⟨3, -2⟩)) =
        getEyeAspectRatio eyePoints ∧
      getEyeAspectRatio (eyePoints.map (scalePoint 2)) =
        getEyeAspectRatio eyePoints :=
  ⟨by decide, by norm_num,
    (ear_similarity_invariance eyePoints ⟨3, -2⟩ 2 (by decide) (by norm_num)).1,
    (ear_similarity_invariance eyePoints ⟨3, -2⟩ 2 (by decide) (by norm_num)).2⟩

/-! ## Fatigue debouncer theorems -/

theorem EAR_THRESHOLD_value : EAR_THRESHOLD = 1 / 4 := by
  have h : (EAR_THRESHOLD.num : ℚ) / (EAR_THRESHOLD.den : ℚ) = EAR_THRESHOLD :=
    Rat.num_div_den EAR_THRESHOLD
  rw [← h]
  norm_num [EAR_THRESHOLD]

theorem debounceRun_closed_eyes (ds : List DetectionSample) :
    ∀ c nf : ℕ, (∀ d ∈ ds, d.faceFound = true ∧ d.ear < EAR_THRESHOLD) →
    (debounceRun ⟨c, nf⟩ ds).2 = (List.range ds.length).map
      (fun i => if CONSECUTIVE_FRAMES_DROWSY < c + i + 1
        then some FatigueEvent.RequestDrowsy else none) := by
  induction ds with
  | nil => intro c nf _; rfl
  | cons d ds ih =>
    intro c nf h
    have hd := h d (by simp)
    have hrest : ∀ x ∈ ds, x.faceFound = true ∧ x.ear < EAR_THRESHOLD :=
      fun x hx => h x (by simp [hx])
    simp only [debounceRun, debounceStep, hd.1, hd.2, if_true, ite_true,
      apply_ite Prod.snd, apply_ite Prod.fst, ite_self,
      List.length_cons, List.range_succ_eq_map, List.map_cons, List.map_map]
    refine congrArg₂ List.cons rfl ?_
    rw [ih (c + 1) 0 hrest]
    apply List.map_congr_left
    intro a _
    simp only [Function.comp_apply, Nat.succ_eq_add_one]
    have he : c + 1 + a + 1 = c + (a + 1) + 1 := by omega
    rw [he]

theorem debounceRun_no_face (ds : List DetectionSample) :
    ∀ c nf : ℕ, (∀ d ∈ ds, d.faceFound = false) →
    debounceRun ⟨c, nf⟩ ds = (⟨c, nf + ds.length⟩, (List.range ds.length).map
      (fun i => if CONSECUTIVE_FRAMES_UNRESPONSIVE < nf + i + 1
        then some FatigueEvent.RequestUnresponsive else none)) := by
  induction ds with
  | nil => intro c nf _; rfl
  | cons d ds ih =>
    intro c nf h
    have hd := h d (by simp)
    have hrest : ∀ x ∈ ds, x.faceFound = false :=
      fun x hx => h x (by simp [hx])
    simp only [debounceRun, debounceStep, hd, Bool.false_eq_true, if_false,
      ite_false, apply_ite Prod.snd, apply_ite Prod.fst, ite_self,
      List.length_cons, List.range_succ_eq_map, List.map_cons, List.map_map]
    rw [ih c (nf + 1) hrest]
    refine congrArg₂ Prod.mk ?_ ?_
    · refine congrArg (DebouncerState.mk c) ?_
      omega
    · refine congrArg₂ List.cons rfl ?_
      apply List.map_congr_left
      intro a _
      simp only [Function.comp_apply, Nat.succ_eq_add_one]
      have he : nf + 1 + a + 1 = nf + (a + 1) + 1 := by omega
      rw [he]

/-- C3: eleven consecutive face-visible samples with averaged EAR below the
threshold, starting from a zeroed debouncer, emit no event on the first ten
samples and exactly one RequestDrowsy on the eleventh (the comparison is
strictly greater than ten). -/
theorem fatigue_drowsy_eleventh (samples : List DetectionSample)
    (h11 : samples.length = 11)
    (hall : ∀ d ∈ samples, d.faceFound = true ∧ d.ear < EAR_THRESHOLD) :
    (debounceRun ⟨0, 0⟩ samples).2 =
      List.replicate 10 none ++ [some FatigueEvent.RequestDrowsy] := by
  rw [debounceRun_closed_eyes samples 0 0 hall, h11]
  decide

/-- Witness for C3 on eleven concrete closed-eyes samples. -/
theorem fatigue_drowsy_eleventh_witness :
    (List.replicate 11 closedEyesSample).length = 11 ∧
      (∀ d ∈ List.replicate 11 closedEyesSample,
        d.faceFound = true ∧ d.ear < EAR_THRESHOLD) ∧
      (debounceRun ⟨0, 0⟩ (List.replicate 11 closedEyesSample)).2 =
        List.replicate 10 none ++ [some FatigueEvent.RequestDrowsy] :=
  ⟨by decide, by decide,
    fatigue_drowsy_eleventh (List.replicate 11 closedEyesSample)
      (by decide) (by decide)⟩

/-- C4: twenty-six consecutive no-face samples, starting from a zeroed
no-face counter and an arbitrary eye-closure counter, emit no event on the
first twenty-five samples and exactly one RequestUnresponsive on the
twenty-sixth; the eye-closure counter is untouched by no-face samples, and
the next face-visible sample resets the no-face counter to zero. -/
theorem fatigue_unresponsive_twentysixth (samples : List DetectionSample)
    (c : ℕ) (h26 : samples.length = 26)
    (hall : ∀ d ∈ samples, d.faceFound = false) :
    (debounceRun ⟨c, 0⟩ samples).2 =
      List.replicate 25 none ++ [some FatigueEvent.RequestUnresponsive] ∧
    (debounceRun ⟨c, 0⟩ samples).1.eyeClosedFrames = c ∧
    (∀ (s : DebouncerState) (d : DetectionSample), d.faceFound = true →
      (debounceStep s d).1.noFaceFrames = 0) := by
  have hsnd := congrArg Prod.snd (debounceRun_no_face samples c 0 hall)
  have hfst := congrArg Prod.fst (debounceRun_no_face samples c 0 hall)
  simp only at hsnd hfst
  refine ⟨?_, ?_, ?_⟩
  · rw [hsnd, h26]
    decide
  · rw [hfst]
  · intro s d hd
    simp only [debounceStep, hd, if_true, ite_true]
    split <;> split <;> rfl

/-- Witness for C4 on twenty-six concrete no-face samples starting with a
non-zero eye-closure counter. -/
theorem fatigue_unresponsive_twentysixth_witness :
    (List.replicate 26 noFaceSample).length = 26 ∧
      (∀ d ∈ List.replicate 26 noFaceSample, d.faceFound = false) ∧
      (debounceRun ⟨3, 0⟩ (List.replicate 26 noFaceSample)).2 =
        List.replicate 25 none ++ [some FatigueEvent.RequestUnresponsive] ∧
      (debounceRun ⟨3, 0⟩ (List.replicate 26 noFaceSample)).1.eyeClosedFrames
        = 3 ∧
      (debounceStep ⟨3, 26⟩ closedEyesSample).1.noFaceFrames = 0 := by
  have h := fatigue_unresponsive_twentysixth (List.replicate 26 noFaceSample)
    3 (by decide) (by decide)
  exact ⟨by decide, by decide, h.1, h.2.1, h.2.2 ⟨3, 26⟩ closedEyesSample rfl⟩

/-! ## Scheduled playback cursor theorems -/

/-- C5: the playback cursor never decreases when a chunk of non-negative
duration is scheduled, and chunks of durations 1/2, 3/10 and 2/5 seconds
all arriving before the first scheduled start t0 are scheduled at exactly
t0, t0 + 1/2 and t0 + 4/5, gapless and non-overlapping. -/
theorem playback_cursor_gapless :
    (∀ cur now dur : ℚ, 0 ≤ dur →
      cur ≤ (scheduleAudioChunk cur now dur).2) ∧
    (∀ cur0 c1 c2 c3 : ℚ,
      c2 ≤ (scheduleAudioChunk cur0 c1 (1 / 2)).1 →
      c3 ≤ (scheduleAudioChunk cur0 c1 (1 / 2)).1 →
      (scheduleAudioChunk cur0 c1 (1 / 2)).1 = max cur0 c1 ∧
      (scheduleAudioChunk (scheduleAudioChunk cur0 c1 (1 / 2)).2 c2
        (3 / 10)).1 = max cur0 c1 + 1 / 2 ∧
      (scheduleAudioChunk (scheduleAudioChunk (scheduleAudioChunk cur0 c1
        (1 / 2)).2 c2 (3 / 10)).2 c3 (2 / 5)).1 = max cur0 c1 + 4 / 5) := by
  constructor
  · intro cur now dur hdur
    simp only [scheduleAudioChunk]
    calc cur ≤ max cur now := le_max_left _ _
      _ ≤ max cur now + dur := by linarith
  · intro cur0 c1 c2 c3 h2 h3
    simp only [scheduleAudioChunk] at h2 h3 ⊢
    have e2 : max (max cur0 c1 + 1 / 2) c2 = max cur0 c1 + 1 / 2 :=
      max_eq_left (by linarith)
    have e3 : max (max cur0 c1 + 1 / 2 + 3 / 10) c3 =
        max cur0 c1 + 1 / 2 + 3 / 10 :=
      max_eq_left (by linarith)
    refine ⟨by simp, e2, ?_⟩
    rw [e2, e3]
    ring

/-- Witness for C5 at concrete cursor and clock values. -/
theorem playback_cursor_gapless_witness :
    (0 : ℚ) ≤ 1 / 2 ∧ (1 : ℚ) ≤ (scheduleAudioChunk 1 0 (1 / 2)).2 ∧
      ((scheduleAudioChunk 1 0 (1 / 2)).1 = max (1 : ℚ) 0 ∧
      (scheduleAudioChunk (scheduleAudioChunk 1 0 (1 / 2)).2 1 (3 / 10)).1 =
        max (1 : ℚ) 0 + 1 / 2 ∧
      (scheduleAudioChunk (scheduleAudioChunk (scheduleAudioChunk 1 0
        (1 / 2)).2 1 (3 / 10)).2 1 (2 / 5)).1 = max (1 : ℚ) 0 + 4 / 5) := by
  have h1 : (1 : ℚ) ≤ (scheduleAudioChunk 1 0 (1 / 2)).1 := le_max_left 1 0
  exact ⟨by norm_num,
    playback_cursor_gapless.1 1 0 (1 / 2) (by norm_num),
    playback_cursor_gapless.2 1 0 1 1 h1 h1⟩

/-! ## Session error and close handler theorems -/

/-- C8 counterexample: with the agent speaking and the playback cursor at
five seconds, the error handler does not reset the conversational state to
IDLE, and neither the error nor the close handler resets the playback
cursor. -/
theorem session_error_close_no_full_reset :
    ¬((onSessionError sessionStateEx).miraState = MiraState.IDLE ∧
      (onSessionError sessionStateEx).nextAudioStartTime = 0 ∧
      (onSessionClose sessionStateEx).nextAudioStartTime = 0) := by
  decide

/-- C8 amended: the close handler resets the conversational state to IDLE
and clears the analyser node, but the error handler only logs and changes
no state, and neither handler resets the playback scheduling cursor. -/
theorem session_close_resets_mira (s : SessionUIState) :
    onSessionError s = s ∧
      (onSessionClose s).miraState = MiraState.IDLE ∧
      (onSessionClose s).analyserSet = false ∧
      (onSessionClose s).nextAudioStartTime = s.nextAudioStartTime :=
  ⟨rfl, rfl, rfl, rfl⟩

/-! ## Tool-call dispatch theorems -/

/-- C2 counterexample: a tool call whose name has no registered handler is
silently skipped by the dispatch loop: no tool-result carrying its id is
produced at all, rather than a textual failure result. -/
theorem toolcall_missing_handler_dropped :
    ¬∃ r ∈ dispatchBatch mockFunctions [orphanCall], r.id = "call-1" := by
  decide

/-- C2 amended: a dispatched tool call yields exactly one correlated
tool-result with its id and name provided its named handler exists in the
registry and returns normally; a call whose name has no registered handler
is silently skipped by the dispatch loop, producing no result of any
kind. -/
theorem toolcall_dispatch_behavior :
    (∀ (registry : String → Option (String → Except String String))
      (batch : List ToolCall),
      (∀ fc ∈ batch, ∃ f, registry fc.name = some f ∧
        ∃ r, f fc.args = Except.ok r) →
      (dispatchBatch registry batch).map ToolResult.id =
        batch.map ToolCall.id ∧
      (dispatchBatch registry batch).map ToolResult.name =
        batch.map ToolCall.name) ∧
    (∀ (registry : String → Option (String → Except String String))
      (fc : ToolCall) (rest : List ToolCall), registry fc.name = none →
      dispatchBatch registry (fc :: rest) = dispatchBatch registry rest) := by
  refine ⟨?_, ?_⟩
  · intro registry batch h
    induction batch with
    | nil => exact ⟨rfl, rfl⟩
    | cons fc rest ih =>
      obtain ⟨f, hf, r, hr⟩ := h fc (by simp)
      have hrest := ih (fun x hx => h x (by simp [hx]))
      simp only [dispatchBatch, hf, hr, List.map_cons]
      exact ⟨by rw [hrest.1], by rw [hrest.2]⟩
  · intro registry fc rest h
    simp only [dispatchBatch, h]

/-- Witness for C2 amended: both registered handlers dispatch with
correlated ids and names. -/
theorem toolcall_dispatch_behavior_witness :
    (dispatchBatch mockFunctions goodBatch).map ToolResult.id =
      goodBatch.map ToolCall.id ∧
    (dispatchBatch mockFunctions goodBatch).map ToolResult.name =
      goodBatch.map ToolCall.name := by
  refine toolcall_dispatch_behavior.1 mockFunctions goodBatch ?_
  intro fc hfc
  simp only [goodBatch, List.mem_cons, List.mem_singleton,
    List.not_mem_nil, or_false] at hfc
  rcases hfc with rfl | rfl
  · exact ⟨_, rfl, _, rfl⟩
  · exact ⟨_, rfl, _, rfl⟩

/-! ## Driver attention state machine theorems -/

set_option maxRecDepth 40000 in
/-- C6 counterexample: after the emergency countdown expires, the
countdown value stays at zero, so a later geolocation update re-runs the
expiry effect of lines 398 to 405 (dependency array
[emergencyCountdown, location]): it notifies the contact a second time and
forces the engaged machine back to MONITORING while Mira is still
LISTENING; the next drowsiness detection then produces a DROWSY state that
the escalation guard of line 384 (Mira must be idle) leaves observable,
with no session start in flight for it. -/
theorem drowsy_observable_without_session :
    (runApp drowsyBlockedRun).driverState = DriverState.DROWSY ∧
      (runApp drowsyBlockedRun).miraState = MiraState.LISTENING ∧
      (runApp drowsyBlockedRun).notifyCount = 2 := by
  decide

/-- C6 amended: the drowsy escalation is guarded by the conversational
state.  When a detection step crosses the drowsiness threshold from
MONITORING (permissions granted, models loaded), then if Mira is IDLE the
very same step starts the live session and moves to ENGAGED with Mira
LISTENING, while if Mira is not IDLE the step leaves the machine in an
observable DROWSY state with the session flag and conversational state
unchanged — no session start fires for it. -/
theorem drowsy_escalation_mira_guarded (s : AppState) (d : DetectionSample)
    (hmon : s.driverState = DriverState.MONITORING)
    (hpg : s.permissionsGranted = true) (hml : s.modelsLoaded = true)
    (hreq : (debounceStep ⟨s.eyeClosedFrames, s.noFaceFrames⟩ d).2 =
      some FatigueEvent.RequestDrowsy) :
    (s.miraState = MiraState.IDLE →
      (appStep s (Ev.detect d)).driverState = DriverState.ENGAGED ∧
      (appStep s (Ev.detect d)).sessionActive = true ∧
      (appStep s (Ev.detect d)).miraState = MiraState.LISTENING) ∧
    (¬ s.miraState = MiraState.IDLE →
      (appStep s (Ev.detect d)).driverState = DriverState.DROWSY ∧
      (appStep s (Ev.detect d)).sessionActive = s.sessionActive ∧
      (appStep s (Ev.detect d)).miraState = s.miraState) := by
  simp only [appStep, rawStep]
  rw [if_pos ⟨hpg, hml, hmon⟩]
  cases hr : debounceStep ⟨s.eyeClosedFrames, s.noFaceFrames⟩ d with
  | mk c ev =>
    rw [hr] at hreq
    have hev : ev = some FatigueEvent.RequestDrowsy := hreq
    subst hev
    simp only [detectUpdate, hr]
    unfold driverEffect
    constructor
    · intro hmira
      rw [if_pos ⟨rfl, hmira⟩, if_pos hpg]
      exact ⟨rfl, rfl, rfl⟩
    · intro hmira
      rw [if_neg (fun hx => hmira hx.2)]
      rw [if_neg (fun hx => DriverState.noConfusion
        (hx.1 : DriverState.DROWSY = DriverState.UNRESPONSIVE))]
      exact ⟨rfl, rfl, rfl⟩

set_option maxRecDepth 40000 in
/-- Witness for C6 amended at two concrete reachable states: with Mira
idle, the eleventh closed-eyes sample engages in the same step; with Mira
listening after the stale-countdown location reset, the same kind of
sample leaves an observable DROWSY state. -/
theorem drowsy_escalation_mira_guarded_witness :
    ((appStep (runApp almostDrowsyRun)
        (Ev.detect closedEyesSample)).driverState = DriverState.ENGAGED ∧
      (appStep (runApp almostDrowsyRun)
        (Ev.detect closedEyesSample)).sessionActive = true ∧
      (appStep (runApp almostDrowsyRun)
        (Ev.detect closedEyesSample)).miraState = MiraState.LISTENING) ∧
    ((appStep (runApp drowsyBlockedPrefix)
        (Ev.detect closedEyesSample)).driverState = DriverState.DROWSY ∧
      (appStep (runApp drowsyBlockedPrefix)
        (Ev.detect closedEyesSample)).sessionActive =
        (runApp drowsyBlockedPrefix).sessionActive ∧
      (appStep (runApp drowsyBlockedPrefix)
        (Ev.detect closedEyesSample)).miraState =
        (runApp drowsyBlockedPrefix).miraState) :=
  ⟨(drowsy_escalation_mira_guarded (runApp almostDrowsyRun) closedEyesSample
      (by decide) (by decide) (by decide) (by decide)).1 (by decide),
    (drowsy_escalation_mira_guarded (runApp drowsyBlockedPrefix)
      closedEyesSample (by decide) (by decide) (by decide) (by decide)).2
      (by decide)⟩

set_option maxRecDepth 40000 in
/-- C1: entering UNRESPONSIVE arms the emergency countdown at fifteen
seconds with no notification yet; the countdown decrements once per tick;
after fifteen uncancelled ticks the contact is notified exactly once (and
never again on later ticks), the countdown is cleared and the machine
returns to MONITORING; cancelling at tick seven instead notifies nobody,
returns to MONITORING immediately and records the acknowledgment as a
USER conversation entry. -/
theorem emergency_countdown_behavior :
    ((runApp unresponsiveRun).driverState = DriverState.UNRESPONSIVE ∧
      (runApp unresponsiveRun).isEmergency = true ∧
      (runApp unresponsiveRun).emergencyTimerOn = true ∧
      (runApp unresponsiveRun).emergencyCountdown = 15 ∧
      (runApp unresponsiveRun).notifyCount = 0) ∧
    (∀ k : ℕ, k < 21 →
      (runApp (unresponsiveRun ++
          List.replicate k Ev.emergencyTick)).notifyCount =
        (if k < 15 then 0 else 1) ∧
      (runApp (unresponsiveRun ++
          List.replicate k Ev.emergencyTick)).driverState =
        (if k < 15 then DriverState.UNRESPONSIVE else DriverState.MONITORING) ∧
      (runApp (unresponsiveRun ++
          List.replicate k Ev.emergencyTick)).emergencyCountdown =
        15 - (Nat.min k 15 : ℕ)) ∧
    ((runApp (unresponsiveRun ++ List.replicate 7 Ev.emergencyTick ++
        [Ev.cancelEmergency])).notifyCount = 0 ∧
      (runApp (unresponsiveRun ++ List.replicate 7 Ev.emergencyTick ++
        [Ev.cancelEmergency])).driverState = DriverState.MONITORING ∧
      (runApp (unresponsiveRun ++ List.replicate 7 Ev.emergencyTick ++
        [Ev.cancelEmergency])).isEmergency = false ∧
      (runApp (unresponsiveRun ++ List.replicate 7 Ev.emergencyTick ++
        [Ev.cancelEmergency])).transcriptions =
        [⟨Speaker.USER, "I\x27m okay."⟩]) := by
  refine ⟨by decide, ?_, by decide⟩
  decide

/-- Witness for C1 at the fifteenth tick: the notification has fired
exactly once and the machine is back to MONITORING. -/
theorem emergency_countdown_behavior_witness :
    (15 : ℕ) < 21 ∧
      (runApp (unresponsiveRun ++
          List.replicate 15 Ev.emergencyTick)).notifyCount =
        (if 15 < 15 then 0 else 1) ∧
      (runApp (unresponsiveRun ++
          List.replicate 15 Ev.emergencyTick)).driverState =
        (if 15 < 15 then DriverState.UNRESPONSIVE else
          DriverState.MONITORING) :=
  ⟨by decide, (emergency_countdown_behavior.2.1 15 (by decide)).1,
    (emergency_countdown_behavior.2.1 15 (by decide)).2.1⟩

end Driva
